import Mathlib

/-!
Verification of the CropGuard image-preprocessing service
(`src/backend/src/services/ai/preprocessing/image_processor.py`).

The Python code is shallowly embedded below.  Conventions:

* 8-bit pixel channels are `ℕ` (with `≤ 255` hypotheses where relevant);
  an RGB pixel is a triple `(r, g, b)`.
* An in-memory image (`PIL.Image` / `np.ndarray` of shape H×W×3) is a
  row-major grid `List (List Pixel)`; `PIL` reports `size = (width, height)`.
* Python float arithmetic is modelled by exact rational arithmetic `ℚ`
  (the claims under study concern the algorithms, not binary rounding).
  Python `int(x)` on a nonnegative float is `Int.floor`; `np.ndarray.astype
  (np.uint8)` after a clip to `[0, 255]` is likewise a floor.
* Fallible external calls (file system, decoder, OpenCV stages, encoder)
  are modelled as `Except String _` values supplied by the caller, so that
  the control flow of `process_image` can be analysed for every outcome.
-/

/-- An RGB pixel: `(r, g, b)`, each channel an 8-bit value. -/
abbrev Pixel : Type := ℕ × ℕ × ℕ

/-- Row-major image buffer, as produced by `np.array(image)`. -/
abbrev Grid : Type := List (List Pixel)

/-- Red channel of a pixel. -/
def Pixel.r (p : Pixel) : ℕ := p.1

/-- Green channel of a pixel. -/
def Pixel.g (p : Pixel) : ℕ := p.2.1

/-- Blue channel of a pixel. -/
def Pixel.b (p : Pixel) : ℕ := p.2.2

/-- `image.width`: number of columns (all rows of a decoded image have the
same length; we read it off the first row). -/
def gridWidth (g : Grid) : ℕ := (g.headD []).length

/-- `image.height`: number of rows. -/
def gridHeight (g : Grid) : ℕ := g.length

/-- `image.size` in PIL convention: `(width, height)`. -/
def gridSize (g : Grid) : ℕ × ℕ := (gridWidth g, gridHeight g)

/-- The configuration dictionary built in `CropImageProcessor.__init__`
(defaults overlaid by caller-supplied entries). -/
structure Config where
  target_size : ℕ × ℕ
  quality : ℕ
  brightness_threshold : ℚ
  contrast_enhancement : ℚ
  sharpness_enhancement : ℚ
  noise_reduction : Bool
  color_correction : Bool
  auto_crop : Bool

/-- The default configuration from `CropImageProcessor.__init__`
(no caller overrides). -/
def defaultConfig : Config :=
  { target_size := (512, 512)
  , quality := 95
  , brightness_threshold := 3 / 10
  , contrast_enhancement := 6 / 5
  , sharpness_enhancement := 11 / 10
  , noise_reduction := true
  , color_correction := true
  , auto_crop := true }

/-- Embedding of `_get_applied_preprocessing` (lines 360-378): a fixed base
list, `auto_crop_plant_focus` inserted at the front when enabled, then
`color_correction` and `noise_reduction` appended when enabled. -/
def getAppliedPreprocessing (c : Config) : List String :=
  let steps := ["resize_to_512x512", "lighting_normalization",
                "contrast_enhancement", "sharpness_enhancement"]
  let steps := if c.auto_crop then "auto_crop_plant_focus" :: steps else steps
  let steps := if c.color_correction then steps ++ ["color_correction"] else steps
  let steps := if c.noise_reduction then steps ++ ["noise_reduction"] else steps
  steps

/-- The order in which `_preprocess_pipeline` (lines 155-180) actually runs
the stages, labelled with the names `_get_applied_preprocessing` uses for
them: step 1 `_auto_crop_plant` (if enabled), step 2 `_smart_resize`,
step 3 `_normalize_lighting`, step 4 `_correct_colors` (if enabled),
step 5 `_enhance_quality` (contrast then sharpness), step 6 `_reduce_noise`
(if enabled). -/
def pipelineStageOrder (c : Config) : List String :=
  (if c.auto_crop then ["auto_crop_plant_focus"] else [])
    ++ ["resize_to_512x512", "lighting_normalization"]
    ++ (if c.color_correction then ["color_correction"] else [])
    ++ ["contrast_enhancement", "sharpness_enhancement"]
    ++ (if c.noise_reduction then ["noise_reduction"] else [])

/-- The `(new_width, new_height)` pair computed by `_smart_resize`
(lines 232-245): aspect ratios as exact rationals, `int()` truncation of the
scaled dimension (the arguments are nonnegative, so truncation is `⌊·⌋`). -/
def scaledDims (c : Config) (w h : ℕ) : ℕ × ℕ :=
  let target_width := c.target_size.1
  let target_height := c.target_size.2
  let original_ratio : ℚ := (w : ℚ) / (h : ℚ)
  let target_ratio : ℚ := (target_width : ℚ) / (target_height : ℚ)
  if target_ratio < original_ratio then
    ((Int.floor ((target_height : ℚ) * original_ratio)).toNat, target_height)
  else
    (target_width, (Int.floor ((target_width : ℚ) / original_ratio)).toNat)

/-- Dimension-level embedding of `_smart_resize` (lines 228-259): resize to
`scaledDims`, then center-crop whenever the scaled dimensions differ from
the target.  `PIL.Image.crop((left, top, right, bottom))` always returns a
buffer of exactly `(right - left) × (bottom - top)` pixels; `//` on
Python ints is floor division, which `Int` division by the positive
literal `2` also is. -/
def smartResizeDims (c : Config) (w h : ℕ) : ℕ × ℕ :=
  let target_width := c.target_size.1
  let target_height := c.target_size.2
  let new_width := (scaledDims c w h).1
  let new_height := (scaledDims c w h).2
  if new_width ≠ target_width ∨ new_height ≠ target_height then
    let left : ℤ := ((new_width : ℤ) - (target_width : ℤ)) / 2
    let top : ℤ := ((new_height : ℤ) - (target_height : ℤ)) / 2
    let right : ℤ := left + (target_width : ℤ)
    let bottom : ℤ := top + (target_height : ℤ)
    ((right - left).toNat, (bottom - top).toNat)
  else
    (new_width, new_height)

/-- Mean of the red channel of `img_array = np.array(image, dtype=np.float32)
/ 255.0` (line 288/292): the image flattened to its pixel list. -/
def avgR (img : List Pixel) : ℚ :=
  ((img.map (fun p => (p.r : ℚ) / 255)).sum) / (img.length : ℚ)

/-- Mean of the green channel of the normalized float buffer (line 293). -/
def avgG (img : List Pixel) : ℚ :=
  ((img.map (fun p => (p.g : ℚ) / 255)).sum) / (img.length : ℚ)

/-- Mean of the blue channel of the normalized float buffer (line 294). -/
def avgB (img : List Pixel) : ℚ :=
  ((img.map (fun p => (p.b : ℚ) / 255)).sum) / (img.length : ℚ)

/-- The damped red scale factor of `_correct_colors` (lines 297-302):
`avg_g / avg_r` when `avg_r > 0` else `1.0`, then
`1.0 + (scale_r - 1.0) * 0.3`. -/
def scaleR (img : List Pixel) : ℚ :=
  let s := if 0 < avgR img then avgG img / avgR img else 1
  1 + (s - 1) * (3 / 10)

/-- The damped blue scale factor of `_correct_colors` (lines 298-303). -/
def scaleB (img : List Pixel) : ℚ :=
  let s := if 0 < avgB img then avgG img / avgB img else 1
  1 + (s - 1) * (3 / 10)

/-- Requantization at line 310: `np.clip(x * 255, 0, 255).astype(np.uint8)`
applied to one normalized channel value (`astype` truncates toward zero;
after the clip the value is nonnegative, so truncation is `⌊·⌋`). -/
def quant8 (x : ℚ) : ℕ := (Int.floor (min (max (x * 255) 0) 255)).toNat

/-- Embedding of `_correct_colors` (lines 283-312): normalize to `[0,1]`
floats, multiply the red and blue channels by the damped scale factors,
leave the green channel untouched, then clip and requantize all three
channels to 8-bit. -/
def correctColors (img : List Pixel) : List Pixel :=
  let sr := scaleR img
  let sb := scaleB img
  img.map (fun p =>
    (quant8 ((p.r : ℚ) / 255 * sr), quant8 ((p.g : ℚ) / 255),
      quant8 ((p.b : ℚ) / 255 * sb)))

/-- The mean of the red channel of the scaled float buffer before the
clip/requantization at line 310 (normalized `[0,1]` scale). -/
def scaledRedMean (img : List Pixel) : ℚ :=
  ((img.map (fun p => (p.r : ℚ) / 255 * scaleR img)).sum) / (img.length : ℚ)

/-- Concrete buffer on which the damping claim fails after requantization:
a single pixel with red 1, green 2, blue 0. -/
def dampingCexImg : List Pixel := [((1 : ℕ), (2 : ℕ), (0 : ℕ))]

/-- One pixel of `cv2.inRange(hsv, np.array([25, 40, 40]),
np.array([85, 255, 255]))` (lines 194-197): membership in the green band is
inclusive on both bounds, hue on OpenCV's 0-180 scale. -/
def inGreenBand (hsv : ℕ × ℕ × ℕ) : Bool :=
  decide (25 ≤ hsv.1 ∧ hsv.1 ≤ 85 ∧ 40 ≤ hsv.2.1 ∧ hsv.2.1 ≤ 255 ∧
    40 ≤ hsv.2.2 ∧ hsv.2.2 ≤ 255)

/-- The binary plant mask of `_auto_crop_plant` (lines 188-197).  The
RGB→HSV color conversion (`cv2.cvtColor`) is kept abstract as the
parameter `hsvOf`; the claim under study quantifies over its output. -/
def greenMask (hsvOf : Pixel → ℕ × ℕ × ℕ) (g : Grid) : List (List Bool) :=
  g.map (List.map (fun p => inGreenBand (hsvOf p)))

/-- What `_auto_crop_plant` extracts from one contour returned by
`cv2.findContours`: its `cv2.contourArea` and its `cv2.boundingRect`. -/
structure Contour where
  area : ℚ
  x : ℕ
  y : ℕ
  w : ℕ
  h : ℕ

/-- `image.crop((x, y, x + w, y + h))` for a box inside the image:
rows `y..y+h`, columns `x..x+w`. -/
def cropBox (g : Grid) (x y w h : ℕ) : Grid :=
  ((g.drop y).take h).map (fun row => (row.drop x).take w)

/-- The body of the `try` block of `_auto_crop_plant` (lines 186-221):
build the green mask, find contours (`findContours` is the abstract,
fallible locator call), and if any contour exists crop to the largest one's
padded, clamped bounding box.  Python's `max(contours, key=...)` keeps the
first maximum, as the fold does; `max(0, x - padding)` is truncated `ℕ`
subtraction; `int(width * 0.1)` is `⌊width / 10⌋`. -/
def autoCropAttempt (hsvOf : Pixel → ℕ × ℕ × ℕ)
    (findContours : List (List Bool) → Except String (List Contour))
    (g : Grid) : Except String Grid := do
  let mask := greenMask hsvOf g
  let contours ← findContours mask
  match contours with
  | [] => pure g
  | c :: cs =>
    let largest := cs.foldl (fun best cc => if best.area < cc.area then cc else best) c
    let padding_x := (Int.floor ((gridWidth g : ℚ) * (1 / 10))).toNat
    let padding_y := (Int.floor ((gridHeight g : ℚ) * (1 / 10))).toNat
    let x := largest.x - padding_x
    let y := largest.y - padding_y
    let w := min (gridWidth g - x) (largest.w + 2 * padding_x)
    let h := min (gridHeight g - y) (largest.h + 2 * padding_y)
    pure (cropBox g x y w h)

/-- Embedding of `_auto_crop_plant` (lines 182-226): any exception raised
inside the `try` block is caught and the original buffer is returned;
when no contour is found the code falls through to `return image`. -/
def autoCropPlant (hsvOf : Pixel → ℕ × ℕ × ℕ)
    (findContours : List (List Bool) → Except String (List Contour))
    (g : Grid) : Grid :=
  match autoCropAttempt hsvOf findContours g with
  | Except.ok res => res
  | Except.error _ => g

/-- What `_validate_input` (lines 124-136) can observe about the input path
through the file system: `Path.exists()` and `Path.stat().st_size`. -/
structure FileInfo where
  pathExists : Bool
  size : ℕ

/-- `Path(input_path).suffix` (CPython `pathlib`): the final path
component's extension from its last dot, or the empty string when there is
no dot, the dot is the first character of the component (hidden files), or
the dot is its last character. -/
def suffixOf (path : String) : String :=
  let name := (path.data.reverse.takeWhile (fun c => c ≠ '/')).reverse
  let after := name.reverse.takeWhile (fun c => c ≠ '.')
  if after.length + 1 < name.length ∧ 0 < after.length then
    String.mk ('.' :: after.reverse)
  else ""

/-- The allow-list `self.supported_formats` (line 46). -/
def supportedFormats : List String :=
  [".jpg", ".jpeg", ".png", ".webp", ".bmp", ".tiff"]

/-- Embedding of `_validate_input` (lines 124-136): existence is checked
first, then the lower-cased extension against the allow-list, then the
20 MiB size bound (`20 * 1024 * 1024`, strict), with the code's literal
error messages. -/
def validateInput (fi : FileInfo) (input_path : String) : Except String Unit :=
  if fi.pathExists = false then
    Except.error ("Input image not found: " ++ input_path)
  else if (suffixOf input_path).toLower ∉ supportedFormats then
    Except.error ("Unsupported image format: " ++ suffixOf input_path)
  else if 20 * 1024 * 1024 < fi.size then
    Except.error "Image file too large (max 20MB)"
  else
    Except.ok ()

/-- The fallible calls `process_image` makes after validation, modelled
as oracle outcomes: `_load_image`, `_preprocess_pipeline`, `_save_image`,
the two `os.path.getsize` calls of the result dictionary, and the quality
scorer (pure, so a plain function). -/
structure Effects where
  load : Except String Grid
  pipeline : Grid → Except String Grid
  save : Grid → Except String Unit
  sizeIn : Except String ℕ
  sizeOut : Except String ℕ
  metrics : Grid → ℚ × ℚ × ℚ

/-- The `time.time()` readings of one invocation: at entry (line 68), at
line 87 on the success path, in the `except` handler (line 121), and for
the result timestamp (line 108). -/
structure Clock where
  tStart : ℚ
  tProc : ℚ
  tExc : ℚ
  tStamp : ℚ

/-- `self.stats` (lines 49-53). -/
structure Stats where
  processed_count : ℕ
  error_count : ℕ
  avg_processing_time : ℚ

/-- The statistics update on the success path (lines 89-94): increment
`processed_count`, then fold the new processing time into the running
average using the incremented count. -/
def updateSuccess (s : Stats) (pt : ℚ) : Stats :=
  let n := s.processed_count + 1
  { processed_count := n
  , error_count := s.error_count
  , avg_processing_time :=
      (s.avg_processing_time * ((n : ℚ) - 1) + pt) / (n : ℚ) }

/-- The statistics update in the `except` handler (line 115): only
`error_count` is incremented. -/
def incErr (s : Stats) : Stats :=
  { processed_count := s.processed_count
  , error_count := s.error_count + 1
  , avg_processing_time := s.avg_processing_time }

/-- The dictionary `process_image` returns: the success dictionary has all
fields (lines 97-109), the failure dictionary only `success`, `error`,
`input_path` and `processing_time` (lines 117-122), so the other fields
are `Option`s. -/
structure PResult where
  success : Bool
  error : Option String
  input_path : String
  output_path : Option String
  original_size : Option (ℕ × ℕ)
  processed_size : Option (ℕ × ℕ)
  processing_time : ℚ
  file_size_before : Option ℕ
  file_size_after : Option ℕ
  preprocessing_applied : Option (List String)
  quality_metrics : Option (ℚ × ℚ × ℚ)
  timestamp : Option ℚ

/-- The failure dictionary built in the `except` handler (lines 117-122). -/
def failResult (input_path : String) (e : String) (pt : ℚ) : PResult :=
  { success := false
  , error := some e
  , input_path := input_path
  , output_path := none
  , original_size := none
  , processed_size := none
  , processing_time := pt
  , file_size_before := none
  , file_size_after := none
  , preprocessing_applied := none
  , quality_metrics := none
  , timestamp := none }

/-- Embedding of `process_image` (lines 55-122).  The body of the `try`
runs validation, load, pipeline and save in order; computes the processing
time and updates the statistics (lines 87-94); then assembles the result
dictionary, whose `os.path.getsize` calls are themselves fallible file
system operations.  Any failure transfers to the `except` handler, which
increments `error_count` and returns the failure dictionary with the time
accrued at that moment (`clk.tExc - clk.tStart`).  The function is total:
it returns the updated statistics and a `PResult` for every outcome. -/
def processImage (validate : Except String Unit) (eff : Effects)
    (clk : Clock) (cfg : Config) (s : Stats)
    (input_path output_path : String) : Stats × PResult :=
  match validate with
  | Except.error e => (incErr s, failResult input_path e (clk.tExc - clk.tStart))
  | Except.ok _ =>
    match eff.load with
    | Except.error e => (incErr s, failResult input_path e (clk.tExc - clk.tStart))
    | Except.ok image =>
      match eff.pipeline image with
      | Except.error e => (incErr s, failResult input_path e (clk.tExc - clk.tStart))
      | Except.ok processed =>
        match eff.save processed with
        | Except.error e => (incErr s, failResult input_path e (clk.tExc - clk.tStart))
        | Except.ok _ =>
          let processing_time := clk.tProc - clk.tStart
          let s' := updateSuccess s processing_time
          match eff.sizeIn with
          | Except.error e =>
              (incErr s', failResult input_path e (clk.tExc - clk.tStart))
          | Except.ok szBefore =>
            match eff.sizeOut with
            | Except.error e =>
                (incErr s', failResult input_path e (clk.tExc - clk.tStart))
            | Except.ok szAfter =>
              (s',
                { success := true
                , error := none
                , input_path := input_path
                , output_path := some output_path
                , original_size := some (gridSize image)
                , processed_size := some (gridSize processed)
                , processing_time := processing_time
                , file_size_before := some szBefore
                , file_size_after := some szAfter
                , preprocessing_applied := some (getAppliedPreprocessing cfg)
                , quality_metrics := some (eff.metrics processed)
                , timestamp := some clk.tStamp })

/-- Whether the invocation reaches the statistics update at lines 89-94:
validation, load, pipeline and save all succeeded. -/
def reachesStatsUpdate (validate : Except String Unit) (eff : Effects) : Bool :=
  match validate with
  | Except.error _ => false
  | Except.ok _ =>
    match eff.load with
    | Except.error _ => false
    | Except.ok image =>
      match eff.pipeline image with
      | Except.error _ => false
      | Except.ok processed =>
        match eff.save processed with
        | Except.error _ => false
        | Except.ok _ => true

/-- An effects oracle whose stages all succeed except the
`os.path.getsize(input_path)` call of the result dictionary (the input
file vanished between validation and result assembly). -/
def sizeInFailsEffects : Effects :=
  { load := Except.ok [[((0 : ℕ), (0 : ℕ), (0 : ℕ))]]
  , pipeline := fun g => Except.ok g
  , save := fun _ => Except.ok ()
  , sizeIn := Except.error "No such file or directory: in.jpg"
  , sizeOut := Except.ok 0
  , metrics := fun _ => (0, 0, 0) }

/-- An all-successful effects oracle. -/
def okEffects : Effects :=
  { load := Except.ok [[((0 : ℕ), (0 : ℕ), (0 : ℕ))]]
  , pipeline := fun g => Except.ok g
  , save := fun _ => Except.ok ()
  , sizeIn := Except.ok 100
  , sizeOut := Except.ok 50
  , metrics := fun _ => (0, 0, 0) }

/-- A concrete clock. -/
def clock0 : Clock :=
  { tStart := 0, tProc := 1, tExc := 2, tStamp := 3 }

/-- Zeroed statistics, the state of a fresh `CropImageProcessor`. -/
def stats0 : Stats :=
  { processed_count := 0, error_count := 0, avg_processing_time := 0 }

/-- The flattened sample list of `np.array(image)` in row-major order
(each pixel contributing its `r`, `g`, `b` values), over which
`np.mean(img_array)` and `np.std(img_array)` of lines 385-386 range. -/
def channelValues (g : Grid) : List ℚ :=
  g.bind (fun row => row.bind (fun p => [(p.r : ℚ), (p.g : ℚ), (p.b : ℚ)]))

/-- `np.mean` over a flattened sample list. -/
def meanVals (l : List ℚ) : ℚ := l.sum / (l.length : ℚ)

/-- `np.var` (the square of `np.std`): population mean of squared
deviations from the mean. -/
def varVals (l : List ℚ) : ℚ :=
  ((l.map (fun x => (x - meanVals l) ^ 2)).sum) / (l.length : ℚ)

/-- One pixel of `cv2.cvtColor(img_array, cv2.COLOR_RGB2GRAY)` (line 389):
OpenCV's fixed-point luma, `(R*4899 + G*9617 + B*1868 + 2^13) >> 14`. -/
def grayPix (p : Pixel) : ℕ :=
  (4899 * p.r + 9617 * p.g + 1868 * p.b + 8192) / 16384

/-- Grayscale conversion of the whole buffer. -/
def grayGrid (g : Grid) : List (List ℕ) := g.map (List.map grayPix)

/-- OpenCV `borderInterpolate(p, len, BORDER_REFLECT_101)` (the default
border of `cv2.Laplacian`): reflection without repeating the edge pixel,
period `2*(len-1)`; a length-1 axis maps everything to index 0. -/
def reflect101 (p : ℤ) (len : ℕ) : ℕ :=
  if len ≤ 1 then 0
  else
    let m := p % (2 * ((len : ℤ) - 1))
    (if m < (len : ℤ) then m else 2 * ((len : ℤ) - 1) - m).toNat

/-- Reading the grayscale matrix at possibly out-of-range indices through
the reflected border. -/
def gridAt (m : List (List ℕ)) (i j : ℤ) : ℕ :=
  let row := m.getD (reflect101 i m.length) []
  row.getD (reflect101 j row.length) 0

/-- One entry of `cv2.Laplacian(gray, cv2.CV_64F)` (line 390): the
aperture-1 kernel `[[0,1,0],[1,-4,1],[0,1,0]]`; on integer input the
`CV_64F` response values are exact integers. -/
def laplacianAt (m : List (List ℕ)) (i j : ℕ) : ℤ :=
  (gridAt m ((i : ℤ) - 1) (j : ℤ) : ℤ) + (gridAt m ((i : ℤ) + 1) (j : ℤ) : ℤ) +
    (gridAt m (i : ℤ) ((j : ℤ) - 1) : ℤ) + (gridAt m (i : ℤ) ((j : ℤ) + 1) : ℤ) -
    4 * (gridAt m (i : ℤ) (j : ℤ) : ℤ)

/-- The full Laplacian response matrix of the grayscale buffer. -/
def laplacianGrid (g : Grid) : List (List ℤ) :=
  let m := grayGrid g
  (List.range m.length).map (fun i =>
    (List.range (m.headD []).length).map (fun j => laplacianAt m i j))

/-- The Laplacian response flattened, over which `.var()` ranges. -/
def lapValues (g : Grid) : List ℚ :=
  (laplacianGrid g).bind (fun row => row.map (fun z => (z : ℚ)))

/-- Python `round(x, 3)` on the metric values (line 393-395).  Python
rounds ties to even while `round` here rounds them up; the two agree
everywhere except exact multiples of `1/2000`, which is immaterial to the
claims under study. -/
noncomputable def round3 (x : ℝ) : ℝ := ((round (x * 1000) : ℤ) : ℝ) / 1000

/-- The record `_calculate_quality_metrics` returns. -/
structure QualityMetrics where
  brightness : ℝ
  contrast : ℝ
  sharpness : ℝ

/-- Embedding of `_calculate_quality_metrics` (lines 380-396):
`round(np.mean(img_array) / 255, 3)`, `round(np.std(img_array) / 255, 3)`
and `round(Laplacian-variance / 1000, 3)`.  A pure function of the buffer:
`np.array(image)` copies and nothing is written back. -/
noncomputable def calculateQualityMetrics (g : Grid) : QualityMetrics :=
  { brightness := round3 ((meanVals (channelValues g) : ℝ) / 255)
  , contrast := round3 (Real.sqrt ((varVals (channelValues g) : ℝ)) / 255)
  , sharpness := round3 ((varVals (lapValues g) : ℝ) / 1000) }

/-- The summed intensity of one row of pixels, as the spec's "pixel
intensity" samples: each pixel contributes its three channel values. -/
def pixelIntensitySum (row : List Pixel) : ℚ :=
  (row.map (fun p => (p.r : ℚ) + (p.g : ℚ) + (p.b : ℚ))).sum

/-- The spec's "mean pixel intensity" for a `wd`-wide, `g.length`-tall
3-channel buffer, written as an explicit nested sum over `3·W·H`
samples. -/
def specMean (g : Grid) (wd : ℕ) : ℚ :=
  (g.map pixelIntensitySum).sum / ((3 * wd * g.length : ℕ) : ℚ)

/-- Summed squared deviations of every channel sample from `μ`. -/
def specSqDevSum (g : Grid) (μ : ℚ) : ℚ :=
  (g.map (fun row =>
    (row.map (fun p =>
      ((p.r : ℚ) - μ) ^ 2 + ((p.g : ℚ) - μ) ^ 2 + ((p.b : ℚ) - μ) ^ 2)).sum)).sum

/-- The spec's population variance of pixel intensity. -/
def specVar (g : Grid) (wd : ℕ) : ℚ :=
  specSqDevSum g (specMean g wd) / ((3 * wd * g.length : ℕ) : ℚ)

/-- The Quality Scorer as §4.9 of the spec words it: brightness = mean
pixel intensity / 255, contrast = standard deviation of pixel intensity
/ 255, sharpness = variance of the Laplacian edge-response on a grayscale
conversion / 1000, each rounded to 3 decimal places. -/
noncomputable def specQualityScorer (g : Grid) (wd : ℕ) : QualityMetrics :=
  { brightness := round3 ((specMean g wd : ℝ) / 255)
  , contrast := round3 (Real.sqrt ((specVar g wd : ℝ)) / 255)
  , sharpness := round3 ((varVals (lapValues g) : ℝ) / 1000) }

/-- C1: for every input image with positive dimensions and a positive
configured target size, `_smart_resize` produces a buffer of exactly
`target_width × target_height`; moreover the intermediate scaled buffer
covers the target box on both axes (so the center crop never pads). -/
theorem smart_resize_exact_target (c : Config) (w h : ℕ)
    (hw : 0 < w) (hh : 0 < h)
    (htw : 0 < c.target_size.1) (hth : 0 < c.target_size.2) :
    smartResizeDims c w h = c.target_size ∧
    c.target_size.1 ≤ (scaledDims c w h).1 ∧
    c.target_size.2 ≤ (scaledDims c w h).2 := by
  have hwq : (0 : ℚ) < (w : ℚ) := by exact_mod_cast hw
  have hhq : (0 : ℚ) < (h : ℚ) := by exact_mod_cast hh
  have htwq : (0 : ℚ) < (c.target_size.1 : ℚ) := by exact_mod_cast htw
  have hthq : (0 : ℚ) < (c.target_size.2 : ℚ) := by exact_mod_cast hth
  have hcover : c.target_size.1 ≤ (scaledDims c w h).1 ∧
      c.target_size.2 ≤ (scaledDims c w h).2 := by
    simp only [scaledDims]
    split_ifs with htr
    · refine ⟨?_, le_refl _⟩
      have h1 : (c.target_size.1 : ℚ) ≤ (c.target_size.2 : ℚ) * ((w : ℚ) / (h : ℚ)) := by
        rw [div_lt_div_iff hthq hhq] at htr
        rw [← mul_div_assoc, le_div_iff hhq]
        nlinarith
      have h2 : (c.target_size.1 : ℤ) ≤
          Int.floor ((c.target_size.2 : ℚ) * ((w : ℚ) / (h : ℚ))) := by
        rw [Int.le_floor]
        exact_mod_cast h1
      have h3 := Int.toNat_le_toNat h2
      simpa using h3
    · refine ⟨le_refl _, ?_⟩
      push_neg at htr
      have h1 : (c.target_size.2 : ℚ) ≤ (c.target_size.1 : ℚ) / ((w : ℚ) / (h : ℚ)) := by
        rw [le_div_iff (div_pos hwq hhq)]
        rw [div_le_div_iff hhq hthq] at htr
        calc (c.target_size.2 : ℚ) * ((w : ℚ) / (h : ℚ))
            = (c.target_size.2 : ℚ) * (w : ℚ) / (h : ℚ) := by ring
          _ ≤ (c.target_size.1 : ℚ) := by
              rw [div_le_iff hhq]; nlinarith
      have h2 : (c.target_size.2 : ℤ) ≤
          Int.floor ((c.target_size.1 : ℚ) / ((w : ℚ) / (h : ℚ))) := by
        rw [Int.le_floor]
        exact_mod_cast h1
      have h3 := Int.toNat_le_toNat h2
      simpa using h3
  refine ⟨?_, hcover⟩
  simp only [smartResizeDims]
  split_ifs with hne
  · rw [Prod.ext_iff]
    constructor <;> · simp only []; omega
  · push_neg at hne
    rw [Prod.ext_iff]
    exact ⟨hne.1, hne.2⟩

/-- Witness for C1 at the spec's end-to-end scenario: a 1024×768 input under
the default configuration comes out exactly 512×512. -/
theorem smart_resize_exact_target_witness :
    (0 < 1024 ∧ 0 < 768 ∧ 0 < defaultConfig.target_size.1 ∧
      0 < defaultConfig.target_size.2) ∧
    (smartResizeDims defaultConfig 1024 768 = defaultConfig.target_size ∧
      defaultConfig.target_size.1 ≤ (scaledDims defaultConfig 1024 768).1 ∧
      defaultConfig.target_size.2 ≤ (scaledDims defaultConfig 1024 768).2) :=
  ⟨⟨by decide, by decide, by decide, by decide⟩,
    smart_resize_exact_target defaultConfig 1024 768
      (by decide) (by decide) (by decide) (by decide)⟩

/-- C2 counterexample: under the default configuration the reported
`preprocessing_applied` list is not the order in which
`_preprocess_pipeline` runs the stages (the pipeline applies color
correction before the contrast/sharpness enhancement, but the report
lists `color_correction` after `sharpness_enhancement`). -/
theorem applied_list_order_cex :
    getAppliedPreprocessing defaultConfig ≠ pipelineStageOrder defaultConfig := by
  decide

/-- C2 (amended): under the default configuration `preprocessing_applied`
is the fixed seven-element report containing the six claimed stage names in
the claimed relative order; the pipeline's execution order, however, places
`color_correction` before `contrast_enhancement` and
`sharpness_enhancement`, so the report does not match execution order. -/
theorem applied_list_default_order :
    getAppliedPreprocessing defaultConfig =
      ["auto_crop_plant_focus", "resize_to_512x512", "lighting_normalization",
       "contrast_enhancement", "sharpness_enhancement", "color_correction",
       "noise_reduction"] ∧
    pipelineStageOrder defaultConfig =
      ["auto_crop_plant_focus", "resize_to_512x512", "lighting_normalization",
       "color_correction", "contrast_enhancement", "sharpness_enhancement",
       "noise_reduction"] ∧
    List.Sublist
      ["auto_crop_plant_focus", "lighting_normalization",
       "contrast_enhancement", "sharpness_enhancement", "color_correction",
       "noise_reduction"]
      (getAppliedPreprocessing defaultConfig) := by
  refine ⟨by decide, by decide, by decide⟩

/-- C10: the reported resize step name is the fixed literal
`resize_to_512x512` for every configuration: it is always a member of
`preprocessing_applied`, and the report is wholly independent of the
configured `target_size`. -/
theorem resize_step_name_fixed (c : Config) :
    "resize_to_512x512" ∈ getAppliedPreprocessing c ∧
    ∀ tw th : ℕ,
      getAppliedPreprocessing { c with target_size := (tw, th) } =
        getAppliedPreprocessing c := by
  constructor
  · rcases c with ⟨ts, q, bt, ce, se, nr, cc, ac⟩
    cases ac <;> cases cc <;> cases nr <;> simp [getAppliedPreprocessing]
  · intro tw th
    rfl

/-- Pulling a constant factor out of a summed map. -/
theorem sum_map_mul_const (l : List Pixel) (f : Pixel → ℚ) (c : ℚ) :
    (l.map (fun p => f p * c)).sum = (l.map f).sum * c := by
  induction l with
  | nil => simp
  | cons q t ih => simp [ih, add_mul]

/-- Requantizing an untouched 8-bit channel is the identity: the value is
normalized to `[0,1]`, multiplied back by 255, clipped and floored. -/
theorem quant8_roundtrip (n : ℕ) (hn : n ≤ 255) : quant8 ((n : ℚ) / 255) = n := by
  have h255 : ((255 : ℚ)) ≠ 0 := by norm_num
  have hmul : ((n : ℚ) / 255) * 255 = (n : ℚ) := div_mul_cancel₀ _ h255
  have hnn : (0 : ℚ) ≤ (n : ℚ) := by positivity
  have hub : (n : ℚ) ≤ 255 := by exact_mod_cast hn
  rw [quant8, hmul, max_eq_left hnn, min_eq_left hub]
  simp

/-- C3: `_correct_colors` never changes the green channel: the buffer it
returns has the same green value at every pixel as its input (only red and
blue are scaled), including through the `[0,1]` normalization, the
multiplication back by 255, the clip and the 8-bit requantization. -/
theorem correct_colors_green_unchanged (img : List Pixel)
    (h : ∀ p ∈ img, p.g ≤ 255) :
    (correctColors img).map Pixel.g = img.map Pixel.g := by
  simp only [correctColors]
  rw [List.map_map]
  apply List.map_congr_left
  intro p hp
  exact quant8_roundtrip p.g (h p hp)

/-- Witness for C3 on a concrete buffer. -/
theorem correct_colors_green_unchanged_witness :
    (∀ p ∈ [((0 : ℕ), (100 : ℕ), (0 : ℕ)), ((10 : ℕ), (255 : ℕ), (3 : ℕ))],
       Pixel.g p ≤ 255) ∧
    (correctColors [((0 : ℕ), (100 : ℕ), (0 : ℕ)), ((10 : ℕ), (255 : ℕ), (3 : ℕ))]).map
        Pixel.g =
      [((0 : ℕ), (100 : ℕ), (0 : ℕ)), ((10 : ℕ), (255 : ℕ), (3 : ℕ))].map Pixel.g :=
  ⟨by decide,
    correct_colors_green_unchanged
      [((0 : ℕ), (100 : ℕ), (0 : ℕ)), ((10 : ℕ), (255 : ℕ), (3 : ℕ))] (by decide)⟩

/-- C7 counterexample: on the buffer with the single pixel `(1, 2, 0)` the
channel means differ and are nonzero, yet the red mean of the stage's
actual (requantized) output equals the original red mean — it does not
move strictly toward the green mean, because `⌊1 · 1.3⌋ = 1`. -/
theorem color_damping_cex :
    0 < avgR dampingCexImg ∧ 0 < avgG dampingCexImg ∧
    avgR dampingCexImg ≠ avgG dampingCexImg ∧
    avgR (correctColors dampingCexImg) = avgR dampingCexImg ∧
    ¬(avgR dampingCexImg < avgR (correctColors dampingCexImg) ∧
      avgR (correctColors dampingCexImg) < avgG dampingCexImg) := by
  have hcc : correctColors dampingCexImg = [((1 : ℕ), (2 : ℕ), (0 : ℕ))] := by
    rw [correctColors]
    norm_num [scaleR, scaleB, avgR, avgG, avgB, dampingCexImg,
      Pixel.r, Pixel.g, Pixel.b, quant8]
    decide
  rw [hcc]
  refine ⟨?_, ?_, ?_, ?_, ?_⟩ <;>
    norm_num [avgR, avgG, dampingCexImg, Pixel.r, Pixel.g]

/-- C7 (amended): before the clip/requantization step, the scaled red
channel mean equals `avg_r + 0.3 · (avg_g − avg_r)` and hence lies strictly
between the original red mean and the green-mean target whenever the two
means are nonzero and differ; when the red channel mean is zero the scale
factor is exactly 1 (no change).  After the 8-bit requantization the output
red mean can fall back to the original value (see the counterexample), so
the strict statement holds for the float buffer, not the quantized one. -/
theorem color_damping_toward_green (img : List Pixel) :
    (avgR img = 0 → scaleR img = 1) ∧
    (0 < avgR img → 0 < avgG img →
      scaledRedMean img = avgR img + (3 / 10) * (avgG img - avgR img) ∧
      (avgR img < avgG img →
        avgR img < scaledRedMean img ∧ scaledRedMean img < avgG img) ∧
      (avgG img < avgR img →
        avgG img < scaledRedMean img ∧ scaledRedMean img < avgR img)) := by
  have hfactor : scaledRedMean img = scaleR img * avgR img := by
    rw [scaledRedMean, avgR]
    rw [sum_map_mul_const img (fun p => (p.r : ℚ) / 255) (scaleR img)]
    ring
  constructor
  · intro h0
    rw [scaleR, if_neg (by rw [h0]; exact lt_irrefl 0)]
    ring
  · intro hR hG
    have hscale : scaleR img = 1 + (avgG img / avgR img - 1) * (3 / 10) := by
      rw [scaleR, if_pos hR]
    have hmean : scaledRedMean img = avgR img + (3 / 10) * (avgG img - avgR img) := by
      rw [hfactor, hscale]
      field_simp
      ring
    refine ⟨hmean, ?_, ?_⟩
    · intro hlt
      constructor <;> [skip; skip] <;> rw [hmean] <;> linarith
    · intro hlt
      constructor <;> rw [hmean] <;> linarith

/-- Witness for C7 at a buffer with red mean 100/255 and green mean
150/255: the pre-quantization red mean moves strictly toward, but not
onto, the green mean. -/
theorem color_damping_toward_green_witness :
    (0 < avgR [((100 : ℕ), (150 : ℕ), (120 : ℕ))] ∧
      0 < avgG [((100 : ℕ), (150 : ℕ), (120 : ℕ))] ∧
      avgR [((100 : ℕ), (150 : ℕ), (120 : ℕ))] <
        avgG [((100 : ℕ), (150 : ℕ), (120 : ℕ))]) ∧
    (avgR [((100 : ℕ), (150 : ℕ), (120 : ℕ))] <
        scaledRedMean [((100 : ℕ), (150 : ℕ), (120 : ℕ))] ∧
      scaledRedMean [((100 : ℕ), (150 : ℕ), (120 : ℕ))] <
        avgG [((100 : ℕ), (150 : ℕ), (120 : ℕ))]) :=
  ⟨⟨by norm_num [avgR, Pixel.r], by norm_num [avgG, Pixel.g],
      by norm_num [avgR, avgG, Pixel.r, Pixel.g]⟩,
    ((color_damping_toward_green [((100 : ℕ), (150 : ℕ), (120 : ℕ))]).2
        (by norm_num [avgR, Pixel.r]) (by norm_num [avgG, Pixel.g])).2.1
      (by norm_num [avgR, avgG, Pixel.r, Pixel.g])⟩

/-- C5: the auto-crop stage is a no-op (pixel-identical output) both when
no pixel of the image falls in the green hue band — any contour finder that
returns no contours for an all-zero mask then takes the fall-through path —
and when the locator raises an internal error; in both cases the stage
returns its input and never fails the pipeline (it is total by type). -/
theorem auto_crop_noop (hsvOf : Pixel → ℕ × ℕ × ℕ)
    (findContours : List (List Bool) → Except String (List Contour)) (g : Grid)
    (h : ((∀ row ∈ g, ∀ p ∈ row, inGreenBand (hsvOf p) = false) ∧
          (∀ m : List (List Bool), (∀ row ∈ m, ∀ b ∈ row, b = false) →
            findContours m = Except.ok [])) ∨
         (∃ e, findContours (greenMask hsvOf g) = Except.error e)) :
    autoCropPlant hsvOf findContours g = g := by
  rcases h with ⟨hng, hfc⟩ | ⟨e, he⟩
  · have hmask : findContours (greenMask hsvOf g) = Except.ok [] := by
      apply hfc
      intro row hrow b hb
      rw [greenMask] at hrow
      obtain ⟨r, hr, rfl⟩ := List.mem_map.mp hrow
      obtain ⟨p, hp, rfl⟩ := List.mem_map.mp hb
      exact hng r hr p hp
    have h1 : autoCropAttempt hsvOf findContours g = Except.ok g := by
      rw [autoCropAttempt, hmask]
      rfl
    rw [autoCropPlant, h1]
  · have h1 : autoCropAttempt hsvOf findContours g = Except.error e := by
      rw [autoCropAttempt, he]
      rfl
    rw [autoCropPlant, h1]

/-- Witness for C5: a one-pixel gray image whose (abstract) HSV value is
outside the green band, with a contour finder honouring the empty-mask
contract, passes through unchanged. -/
theorem auto_crop_noop_witness :
    autoCropPlant (fun _ => ((0 : ℕ), (0 : ℕ), (0 : ℕ)))
        (fun _ => Except.ok []) [[((7 : ℕ), (7 : ℕ), (7 : ℕ))]] =
      [[((7 : ℕ), (7 : ℕ), (7 : ℕ))]] :=
  auto_crop_noop _ _ _ (Or.inl ⟨by decide, fun _ _ => rfl⟩)

/-- C4: `process_image` is total (it returns a `Stats × PResult` for every
oracle outcome — no exception escapes the public entry point), and whenever
the returned record is a failure it carries a human-readable error message,
the input path, and the time accrued up to the failure. -/
theorem process_image_failure_contract (v : Except String Unit)
    (eff : Effects) (clk : Clock) (cfg : Config) (s : Stats) (i o : String)
    (h : (processImage v eff clk cfg s i o).2.success = false) :
    (∃ msg, (processImage v eff clk cfg s i o).2.error = some msg) ∧
    (processImage v eff clk cfg s i o).2.input_path = i ∧
    (processImage v eff clk cfg s i o).2.processing_time =
      clk.tExc - clk.tStart := by
  cases v with
  | error e => simp [processImage, failResult]
  | ok u =>
    cases hl : eff.load with
    | error e => simp [processImage, hl, failResult]
    | ok image =>
      cases hp : eff.pipeline image with
      | error e => simp [processImage, hl, hp, failResult]
      | ok processed =>
        cases hs : eff.save processed with
        | error e => simp [processImage, hl, hp, hs, failResult]
        | ok v2 =>
          cases hsi : eff.sizeIn with
          | error e => simp [processImage, hl, hp, hs, hsi, failResult]
          | ok szb =>
            cases hso : eff.sizeOut with
            | error e => simp [processImage, hl, hp, hs, hsi, hso, failResult]
            | ok sza =>
              exfalso
              simp [processImage, hl, hp, hs, hsi, hso] at h

/-- Witness for C4: a validation failure produces a failed result carrying
the message, the input path and the accrued time. -/
theorem process_image_failure_contract_witness :
    (processImage (Except.error "boom") okEffects clock0 defaultConfig
        stats0 "in.jpg" "out.jpg").2.success = false ∧
    ((∃ msg,
        (processImage (Except.error "boom") okEffects clock0 defaultConfig
            stats0 "in.jpg" "out.jpg").2.error = some msg) ∧
      (processImage (Except.error "boom") okEffects clock0 defaultConfig
          stats0 "in.jpg" "out.jpg").2.input_path = "in.jpg" ∧
      (processImage (Except.error "boom") okEffects clock0 defaultConfig
          stats0 "in.jpg" "out.jpg").2.processing_time =
        clock0.tExc - clock0.tStart) :=
  ⟨rfl, process_image_failure_contract (Except.error "boom") okEffects clock0
    defaultConfig stats0 "in.jpg" "out.jpg" rfl⟩

/-- C9 counterexample: with every stage succeeding except the
`os.path.getsize(input_path)` call of the result dictionary — which runs
after the statistics update at lines 89-94 — the invocation fails
(`success = false`) yet `processed_count` has increased from 0 to 1,
`error_count` has also increased, and `avg_processing_time` has changed:
the failing invocation did not leave `processed_count` and the average
unchanged, and `processed_count + error_count = 2` after one invocation. -/
theorem stats_not_atomic_cex :
    (processImage (Except.ok ()) sizeInFailsEffects clock0 defaultConfig
        stats0 "in.jpg" "out.jpg").2.success = false ∧
    (processImage (Except.ok ()) sizeInFailsEffects clock0 defaultConfig
        stats0 "in.jpg" "out.jpg").1.processed_count = 1 ∧
    (processImage (Except.ok ()) sizeInFailsEffects clock0 defaultConfig
        stats0 "in.jpg" "out.jpg").1.error_count = 1 ∧
    (processImage (Except.ok ()) sizeInFailsEffects clock0 defaultConfig
        stats0 "in.jpg" "out.jpg").1.avg_processing_time =
      stats0.avg_processing_time + 1 := by
  refine ⟨rfl, rfl, rfl, ?_⟩
  norm_num [processImage, sizeInFailsEffects, updateSuccess, incErr, clock0,
    stats0]

/-- C9 (amended): per invocation, `error_count` increases by one exactly on
failures and `processed_count` increases by one exactly when the invocation
reaches the statistics update (validation, load, pipeline and save all
succeeded); a failure after that point (in the result assembly) therefore
increments both counters and also folds a time into the running average, so
`processed_count + error_count` grows by 2 instead of 1 on such runs. -/
theorem stats_update_per_invocation (v : Except String Unit) (eff : Effects)
    (clk : Clock) (cfg : Config) (s : Stats) (i o : String) :
    ((processImage v eff clk cfg s i o).1.error_count =
      if (processImage v eff clk cfg s i o).2.success = true
      then s.error_count else s.error_count + 1) ∧
    ((processImage v eff clk cfg s i o).1.processed_count =
      if reachesStatsUpdate v eff = true
      then s.processed_count + 1 else s.processed_count) ∧
    ((processImage v eff clk cfg s i o).1.processed_count +
        (processImage v eff clk cfg s i o).1.error_count =
      if reachesStatsUpdate v eff = true ∧
          (processImage v eff clk cfg s i o).2.success = false
      then s.processed_count + s.error_count + 2
      else s.processed_count + s.error_count + 1) ∧
    ((processImage v eff clk cfg s i o).1.avg_processing_time =
      if reachesStatsUpdate v eff = true
      then (s.avg_processing_time * (s.processed_count : ℚ) +
            (clk.tProc - clk.tStart)) / ((s.processed_count : ℚ) + 1)
      else s.avg_processing_time) := by
  cases v with
  | error e =>
    simp [processImage, reachesStatsUpdate, incErr, failResult]
    omega
  | ok u =>
    cases hl : eff.load with
    | error e =>
      simp [processImage, reachesStatsUpdate, incErr, failResult, hl]
      omega
    | ok image =>
      cases hp : eff.pipeline image with
      | error e =>
        simp [processImage, reachesStatsUpdate, incErr, failResult, hl, hp]
        omega
      | ok processed =>
        cases hs : eff.save processed with
        | error e =>
          simp [processImage, reachesStatsUpdate, incErr, failResult, hl, hp, hs]
          omega
        | ok v2 =>
          cases hsi : eff.sizeIn with
          | error e =>
            simp [processImage, reachesStatsUpdate, incErr, updateSuccess,
              failResult, hl, hp, hs, hsi]
            ring
          | ok szb =>
            cases hso : eff.sizeOut with
            | error e =>
              simp [processImage, reachesStatsUpdate, incErr, updateSuccess,
                failResult, hl, hp, hs, hsi, hso]
              ring
            | ok sza =>
              simp [processImage, reachesStatsUpdate, incErr, updateSuccess,
                failResult, hl, hp, hs, hsi, hso]
              ring

/-- C6: validation runs before any decode.  Whenever `_validate_input`
fails, the invocation's outcome is completely independent of the decoder
and of every later stage (they are never consulted), it returns
`success = false` carrying the validation message; and the three checks
fire in order with their specific errors: missing path → not-found,
extension outside the case-insensitive allow-list → unsupported-format,
and (for existing files of allow-listed extension) a failure is exactly the
over-20-MiB size-limit error. -/
theorem validation_gates (fi : FileInfo) (p e : String)
    (h : validateInput fi p = Except.error e) :
    (∀ eff eff' clk cfg s o,
      processImage (validateInput fi p) eff clk cfg s p o =
        processImage (validateInput fi p) eff' clk cfg s p o) ∧
    (∀ eff clk cfg s o,
      (processImage (validateInput fi p) eff clk cfg s p o).2.success = false ∧
      (processImage (validateInput fi p) eff clk cfg s p o).2.error = some e) ∧
    (fi.pathExists = false → e = "Input image not found: " ++ p) ∧
    (fi.pathExists = true → (suffixOf p).toLower ∉ supportedFormats →
      e = "Unsupported image format: " ++ suffixOf p) ∧
    (fi.pathExists = true → (suffixOf p).toLower ∈ supportedFormats →
      e = "Image file too large (max 20MB)" ∧ 20 * 1024 * 1024 < fi.size) := by
  refine ⟨?_, ?_, ?_, ?_, ?_⟩
  · intro eff eff' clk cfg s o
    rw [h]
    rfl
  · intro eff clk cfg s o
    rw [h]
    exact ⟨rfl, rfl⟩
  · intro hex
    simp [validateInput, hex] at h
    exact h.symm
  · intro hex hfmt
    simp [validateInput, hex, hfmt] at h
    exact h.symm
  · intro hex hfmt
    simp [validateInput, hex, hfmt] at h
    by_cases hsz : 20 * 1024 * 1024 < fi.size
    · rw [if_pos hsz] at h
      injection h with h2
      exact ⟨h2.symm, hsz⟩
    · rw [if_neg hsz] at h
      exact Except.noConfusion h

/-- Witness for C6: a nonexistent `.gif` path fails closed with the
not-found message, with the decoder never consulted. -/
theorem validation_gates_witness :
    validateInput { pathExists := false, size := 0 } "leaf.gif" =
      Except.error ("Input image not found: " ++ "leaf.gif") ∧
    ((processImage (validateInput { pathExists := false, size := 0 } "leaf.gif")
        okEffects clock0 defaultConfig stats0 "leaf.gif" "out.jpg").2.success =
      false ∧
    (processImage (validateInput { pathExists := false, size := 0 } "leaf.gif")
        okEffects clock0 defaultConfig stats0 "leaf.gif" "out.jpg").2.error =
      some ("Input image not found: " ++ "leaf.gif")) :=
  ⟨rfl,
    (validation_gates { pathExists := false, size := 0 } "leaf.gif"
        ("Input image not found: " ++ "leaf.gif") rfl).2.1
      okEffects clock0 defaultConfig stats0 "out.jpg"⟩

/-- Mapping over one pixel's three channel samples and summing. -/
theorem row_chan_map_sum (f : ℚ → ℚ) (row : List Pixel) :
    ((row.bind (fun p => [(p.r : ℚ), (p.g : ℚ), (p.b : ℚ)])).map f).sum =
      (row.map (fun p => f (p.r : ℚ) + f (p.g : ℚ) + f (p.b : ℚ))).sum := by
  induction row with
  | nil => simp
  | cons q t ih =>
    simp [ih]
    ring

/-- Mapping over the flattened sample list and summing equals the nested
row-by-row sum. -/
theorem chan_map_sum (f : ℚ → ℚ) (g : Grid) :
    ((channelValues g).map f).sum =
      (g.map (fun row =>
        (row.map (fun p => f (p.r : ℚ) + f (p.g : ℚ) + f (p.b : ℚ))).sum)).sum := by
  induction g with
  | nil => simp [channelValues]
  | cons row t ih =>
    have h3 : channelValues (row :: t) =
        (row.bind (fun p => [(p.r : ℚ), (p.g : ℚ), (p.b : ℚ)])) ++ channelValues t := by
      simp [channelValues]
    rw [h3, List.map_append, List.sum_append, row_chan_map_sum, ih,
      List.map_cons, List.sum_cons]

/-- One row of pixels contributes three samples per pixel. -/
theorem row_chan_length (row : List Pixel) :
    (row.bind (fun p => [(p.r : ℚ), (p.g : ℚ), (p.b : ℚ)])).length =
      3 * row.length := by
  induction row with
  | nil => simp
  | cons q t ih =>
    simp [ih]
    ring

/-- A rectangular `wd`-wide buffer flattens to `3·wd·height` samples. -/
theorem channelValues_length (g : Grid) (wd : ℕ)
    (hrect : ∀ row ∈ g, row.length = wd) :
    (channelValues g).length = 3 * wd * g.length := by
  induction g with
  | nil => simp [channelValues]
  | cons row t ih =>
    have h1 : row.length = wd := hrect row (by simp)
    have h2 := ih (fun r hr => hrect r (by simp [hr]))
    have h3 : channelValues (row :: t) =
        (row.bind (fun p => [(p.r : ℚ), (p.g : ℚ), (p.b : ℚ)])) ++ channelValues t := by
      simp [channelValues]
    rw [h3, List.length_append, row_chan_length, h1, h2]
    simp [List.length_cons]
    ring

/-- C8: the quality scorer is a pure function of the final buffer — two
runs on the same buffer are the same value, and the embedding is
side-effect free by construction — and its three values equal the spec's
formulas: mean pixel intensity / 255, standard deviation of pixel
intensity / 255, Laplacian variance on the grayscale conversion / 1000,
each rounded to 3 decimal places.  No result is ever rejected: the scorer
is total. -/
theorem quality_scorer_pure_spec (g : Grid) (wd : ℕ)
    (hrect : ∀ row ∈ g, row.length = wd) :
    calculateQualityMetrics g = calculateQualityMetrics g ∧
    calculateQualityMetrics g = specQualityScorer g wd := by
  refine ⟨rfl, ?_⟩
  have hsum : (channelValues g).sum = (g.map pixelIntensitySum).sum := by
    have h := chan_map_sum id g
    simp only [List.map_id, id_eq] at h
    exact h
  have hmean : meanVals (channelValues g) = specMean g wd := by
    rw [meanVals, specMean, hsum, channelValues_length g wd hrect]
  have hvar : varVals (channelValues g) = specVar g wd := by
    rw [varVals, specVar, channelValues_length g wd hrect]
    congr 1
    rw [hmean]
    rw [chan_map_sum (fun x => (x - specMean g wd) ^ 2) g, specSqDevSum]
  rw [calculateQualityMetrics, specQualityScorer, hmean, hvar]

/-- Witness for C8 on a concrete 1×1 buffer. -/
theorem quality_scorer_pure_spec_witness :
    (∀ row ∈ [[((10 : ℕ), (20 : ℕ), (30 : ℕ))]], row.length = 1) ∧
    calculateQualityMetrics [[((10 : ℕ), (20 : ℕ), (30 : ℕ))]] =
      specQualityScorer [[((10 : ℕ), (20 : ℕ), (30 : ℕ))]] 1 :=
  ⟨by decide,
    (quality_scorer_pure_spec [[((10 : ℕ), (20 : ℕ), (30 : ℕ))]] 1 (by decide)).2⟩
